import Mathlib

/-!
Verification of the GridCentric orchestration manager
(`gridcentric/nova/extension/manager.py`): the page-budget parser, the
per-instance lock manager, the bless / launch / discard / migrate protocol
sagas (modelled as pure functions over an explicit database state, a driver
environment recording the outcome of each external call, and an effect
trace), and the host reconciliation pass.
-/

set_option autoImplicit false

namespace GridCentric

/-! ## Page-budget parser (`memory_string_to_pages`) -/

/-- Value of a non-empty all-digit character list (the `\d+` capture group of
the unit patterns); `none` when the list is empty or has a non-digit. -/
def digitsVal? (cs : List Char) : Option Nat :=
  if cs ≠ [] ∧ cs.all Char.isDigit then
    some (cs.foldl (fun a c => a * 10 + (c.toNat - 48)) 0)
  else none

/-- Match one unit pattern `^(\d+)<sfx>$` against the (lowercased) character
list, returning the captured numeric value on success. -/
def matchUnit? (cs sfx : List Char) : Option Nat :=
  if sfx.isSuffixOf cs then digitsVal? (cs.take (cs.length - sfx.length)) else none

/-- The unit table of `memory_string_to_pages`: each pattern paired with its
bit shift (`tb`→40, `gb`→30, `mb`→20, `kb`→10, `b`→0, bare digits→0).  The
patterns are mutually exclusive, so trying them in a fixed order is faithful
to the source's arbitrary dict order.  Returns `(value, shift)`. -/
def matchMemoryString? (cs : List Char) : Option (Nat × Nat) :=
  match matchUnit? cs [Char.ofNat 116, Char.ofNat 98] with
  | some v => some (v, 40)
  | none =>
  match matchUnit? cs [Char.ofNat 103, Char.ofNat 98] with
  | some v => some (v, 30)
  | none =>
  match matchUnit? cs [Char.ofNat 109, Char.ofNat 98] with
  | some v => some (v, 20)
  | none =>
  match matchUnit? cs [Char.ofNat 107, Char.ofNat 98] with
  | some v => some (v, 10)
  | none =>
  match matchUnit? cs [Char.ofNat 98] with
  | some v => some (v, 0)
  | none =>
  match digitsVal? cs with
  | some v => some (v, 0)
  | none => none

/-- `memory_string_to_pages` from the source: lowercase the input, match one
of the unit patterns, shift the captured value to bytes, then shift right by
12 (pages), with a floor of one page.  `none` models the `ValueError`. -/
def memory_string_to_pages (mem : String) : Option Nat :=
  match matchMemoryString? (mem.data.map Char.toLower) with
  | some (v, shift) => some (max 1 ((v <<< shift) >>> 12))
  | none => none

/-- The byte value denoted by a page-budget string (digits times the unit
multiplier), for relating the parser's output to its input's denotation. -/
def memory_string_to_bytes (mem : String) : Option Nat :=
  match matchMemoryString? (mem.data.map Char.toLower) with
  | some (v, shift) => some (v <<< shift)
  | none => none

/-! ## Instance lock manager (`_lock_instance` / `_unlock_instance`)

The `locked_instances` map is an association list from instance id to
`(owner, refcount)`; the owner is the id of the current greenlet.  Acquiring
is modelled as one atomic attempt: `none` means the caller found the lock
held by a different owner and waits on the condition variable. -/

/-- Lookup in the `locked_instances` map. -/
def lookupLock (m : List (Nat × Nat × Nat)) (iid : Nat) : Option (Nat × Nat) :=
  match m with
  | [] => none
  | (i, o, c) :: rest => if i = iid then some (o, c) else lookupLock rest iid

/-- Store an `(owner, refcount)` entry, replacing an existing entry for the
same id (appending when absent). -/
def setLock (m : List (Nat × Nat × Nat)) (iid o c : Nat) : List (Nat × Nat × Nat) :=
  match m with
  | [] => [(iid, o, c)]
  | (i, o0, c0) :: rest =>
    if i = iid then (iid, o, c) :: rest else (i, o0, c0) :: setLock rest iid o c

/-- Delete the entry for an id. -/
def removeLock (m : List (Nat × Nat × Nat)) (iid : Nat) : List (Nat × Nat × Nat) :=
  match m with
  | [] => []
  | (i, o, c) :: rest => if i = iid then rest else (i, o, c) :: removeLock rest iid

/-- `_lock_instance`: read the entry for `iid`, defaulting to
`(current_thread, 0)`; if a different owner holds it, wait on the condition
variable (`none`); otherwise store the entry with the refcount incremented. -/
def lock_instance (m : List (Nat × Nat × Nat)) (me iid : Nat) :
    Option (List (Nat × Nat × Nat)) :=
  let (owner, refcount) := (lookupLock m iid).getD (me, 0)
  if owner ≠ me then none
  else some (setLock m iid owner (refcount + 1))

/-- `_unlock_instance`: when an entry exists, either delete it and notify all
waiters (refcount 1) or decrement the refcount.  The boolean records whether
`notifyAll` ran. -/
def unlock_instance (m : List (Nat × Nat × Nat)) (iid : Nat) :
    List (Nat × Nat × Nat) × Bool :=
  match lookupLock m iid with
  | none => (m, false)
  | some (o, c) =>
    if c = 1 then (removeLock m iid, true)
    else (setLock m iid o (c - 1), false)

theorem lookupLock_setLock_self (m : List (Nat × Nat × Nat)) (iid o c : Nat) :
    lookupLock (setLock m iid o c) iid = some (o, c) := by
  induction m with
  | nil => simp [setLock, lookupLock]
  | cons hd tl ih =>
    obtain ⟨i, o0, c0⟩ := hd
    by_cases h : i = iid <;> simp [setLock, lookupLock, h, ih]

theorem lookupLock_eq_none_of_not_mem (m : List (Nat × Nat × Nat)) (iid : Nat)
    (h : iid ∉ m.map (fun e => e.1)) : lookupLock m iid = none := by
  induction m with
  | nil => rfl
  | cons hd tl ih =>
    obtain ⟨i, o0, c0⟩ := hd
    simp only [List.map_cons, List.mem_cons] at h
    push_neg at h
    have hne : i ≠ iid := fun hi => h.1 hi.symm
    simp only [lookupLock, if_neg hne]
    exact ih h.2

theorem lookupLock_removeLock_self (m : List (Nat × Nat × Nat)) (iid : Nat)
    (hnd : (m.map (fun e => e.1)).Nodup) :
    lookupLock (removeLock m iid) iid = none := by
  induction m with
  | nil => simp [removeLock, lookupLock]
  | cons hd tl ih =>
    obtain ⟨i, o0, c0⟩ := hd
    simp only [List.map_cons, List.nodup_cons] at hnd
    by_cases h : i = iid
    · subst h
      simp only [removeLock, if_pos rfl]
      exact lookupLock_eq_none_of_not_mem tl i hnd.1
    · simp only [removeLock, if_neg h, lookupLock, if_neg h]
      exact ih hnd.2

/-! ## Data model

Instance records, tag metadata (an ordered key→value dict), partial record
updates (the keyword arguments of `_instance_update`), the database state a
protocol mutates, and the trace of external effects a protocol issues. -/

/-- A tag-metadata value: string values (artifact lists, host hints) or the
boolean `blessed` flag. -/
inductive MetaVal where
  | s (v : String)
  | b (v : Bool)
deriving DecidableEq, Repr

/-- Tag metadata: an ordered association of key to value, as a Python dict. -/
abbrev Metadata := List (String × MetaVal)

/-- Dict read: first entry with the key. -/
def mdGet (md : Metadata) (key : String) : Option MetaVal :=
  match md with
  | [] => none
  | (k, v) :: rest => if k = key then some v else mdGet rest key

/-- Dict read of a string-valued key (`metadata.get(key, None)` compared
against host strings); a boolean value does not count. -/
def mdGetStr (md : Metadata) (key : String) : Option String :=
  match mdGet md key with
  | some (MetaVal.s v) => some v
  | _ => none

/-- Dict write: replace in place when the key exists, append otherwise. -/
def mdSet (md : Metadata) (key : String) (v : MetaVal) : Metadata :=
  match md with
  | [] => [(key, v)]
  | (k, v0) :: rest =>
    if k = key then (key, v) :: rest else (k, v0) :: mdSet rest key v

/-- The fields of an instance record touched by the manager. -/
structure InstanceRecord where
  id : Nat
  name : String
  vm_state : String
  task_state : Option String
  host : Option String
  node : Option String
  launched_at : Option Nat
  terminated_at : Option Nat
deriving DecidableEq, Repr

/-- The keyword arguments of one `_instance_update` call: `none` means the
field is not mentioned; `some v` sets the column to `v` (possibly NULL). -/
structure UpdateFields where
  vm_state : Option String := none
  task_state : Option (Option String) := none
  host : Option (Option String) := none
  node : Option (Option String) := none
  launched_at : Option (Option Nat) := none
  terminated_at : Option (Option Nat) := none
deriving DecidableEq, Repr

/-- Apply an `_instance_update` to a record. -/
def applyUpdate (r : InstanceRecord) (f : UpdateFields) : InstanceRecord :=
  { r with
    vm_state := f.vm_state.getD r.vm_state
    task_state := f.task_state.getD r.task_state
    host := f.host.getD r.host
    node := f.node.getD r.node
    launched_at := f.launched_at.getD r.launched_at
    terminated_at := f.terminated_at.getD r.terminated_at }

/-- The persistent state of one instance: its record (`none` once destroyed)
and its tag metadata. -/
structure Db where
  record : Option InstanceRecord
  metadata : Metadata
deriving DecidableEq, Repr

/-- Update the record (`db.instance_update` through `_instance_update`). -/
def dbUpdate (db : Db) (f : UpdateFields) : Db :=
  { db with record := db.record.map (fun r => applyUpdate r f) }

/-- One external call issued by a protocol.  A trace records the calls in
program order; driver and rpc calls appear when attempted, database
mutations additionally change the `Db` only when they succeed. -/
inductive Effect where
  | driverBless
  | driverPostBless
  | driverLaunch (imageRefs : List String)
  | driverDiscard (imageRefs : List String)
  | driverBlessCleanup
  | driverPreMigration
  | driverPostMigration
  | metadataGet
  | metadataUpdate (md : Metadata)
  | instanceUpdate (f : UpdateFields)
  | instanceDestroy
  | notify (op : String)
  | rpcCall (method : String)
  | networkAllocate
  | reconfigureNetworks
  | blessInstanceCall
  | launchInstanceCall
deriving DecidableEq, Repr

/-- `vm_states` and `task_states` constants used by the manager. -/
def ACTIVE : String := "active"
def BUILDING : String := "building"
def BLESSED : String := "blessed"
def MIGRATING : String := "migrating"
def ERROR : String := "error"
def DELETED : String := "deleted"
def NETWORKING : String := "networking"
def SPAWNING : String := "spawning"

/-- `metadata.get('images','').split(',')`, with the single-empty-string
result collapsed to the empty list (`_extract_image_refs`). -/
def extract_image_refs (md : Metadata) : List String :=
  let images := (mdGetStr md "images").getD ""
  let refs := images.splitOn ","
  if refs = [""] then [] else refs

/-- `','.join(refs)`. -/
def joinComma (refs : List String) : String :=
  String.intercalate "," refs

/-! ## Host reconciliation (`_refresh_host`)

The loop body for one instance bound to this host: given the set of
currently locked instance ids, the names of the VMs actually running on this
host, the instance's record and its metadata, return the `_instance_update`
to apply (if any) together with the trace of calls made for this instance. -/

/-- One iteration of `_refresh_host`'s loop.  A locked instance is skipped
before anything is read; a non-MIGRATING instance is left alone; otherwise
the four-way comparison of (locally running?) × (src/dst host hint) decides
the update, with `host` defaulting to this host and `state = None` meaning
no update. -/
def refresh_host_instance (selfHost : String) (lockedIds : List Nat)
    (localInstances : List String) (inst : InstanceRecord) (md : Metadata) :
    Option UpdateFields × List Effect :=
  if inst.id ∈ lockedIds then (none, [])
  else if inst.vm_state = MIGRATING then
    let src_host := mdGetStr md "gc_src_host"
    let dst_host := mdGetStr md "gc_dst_host"
    if inst.name ∈ localInstances then
      if src_host = some selfHost then
        (some { vm_state := some ACTIVE, host := some (some selfHost) },
         [Effect.metadataGet, Effect.instanceUpdate
            { vm_state := some ACTIVE, host := some (some selfHost) }])
      else if dst_host = some selfHost then
        (some { vm_state := some ACTIVE, host := some (some selfHost) },
         [Effect.metadataGet, Effect.reconfigureNetworks, Effect.instanceUpdate
            { vm_state := some ACTIVE, host := some (some selfHost) }])
      else (none, [Effect.metadataGet])
    else
      if src_host = some selfHost then
        (some { vm_state := some MIGRATING, host := some dst_host },
         [Effect.metadataGet, Effect.instanceUpdate
            { vm_state := some MIGRATING, host := some dst_host }])
      else if dst_host = some selfHost then
        (some { vm_state := some ERROR, host := some (some selfHost) },
         [Effect.metadataGet, Effect.instanceUpdate
            { vm_state := some ERROR, host := some (some selfHost) }])
      else (none, [Effect.metadataGet])
  else (none, [])

/-- The whole reconciliation pass: fold the loop body over the instances
bound to this host, applying each produced update to that instance's state. -/
def refresh_host (selfHost : String) (lockedIds : List Nat)
    (localInstances : List String) (dbInstances : List (InstanceRecord × Metadata)) :
    List (InstanceRecord × Metadata) × List Effect :=
  match dbInstances with
  | [] => ([], [])
  | (inst, md) :: rest =>
    let step := refresh_host_instance selfHost lockedIds localInstances inst md
    let inst2 := match step.1 with
      | some f => applyUpdate inst f
      | none => inst
    let rest2 := refresh_host selfHost lockedIds localInstances rest
    ((inst2, md) :: rest2.1, step.2 ++ rest2.2)

instance {ε α : Type} [DecidableEq ε] [DecidableEq α] : DecidableEq (Except ε α) := fun a b =>
  match a, b with
  | Except.error e, Except.error f =>
    if h : e = f then Decidable.isTrue (congrArg Except.error h)
    else Decidable.isFalse (fun hh => h (by cases hh; rfl))
  | Except.ok x, Except.ok y =>
    if h : x = y then Decidable.isTrue (congrArg Except.ok h)
    else Decidable.isFalse (fun hh => h (by cases hh; rfl))
  | Except.error _, Except.ok _ => Decidable.isFalse (fun hh => Except.noConfusion hh)
  | Except.ok _, Except.error _ => Decidable.isFalse (fun hh => Except.noConfusion hh)

/-- Python truthiness of an optional string (`if migration_url:`). -/
def isTruthy (s : Option String) : Bool :=
  match s with
  | some v => v != ""
  | none => false

/-! ## Bless protocol (`bless_instance`)

The outcome of each fallible external call is given by a `BlessEnv`; the
database mutations apply to the blessed instance's `Db`.  The result is the
returned migration url (`Except.error` models an exception escaping the
method), the final `Db`, and the trace of calls in program order. -/

/-- Outcomes of the external calls `bless_instance` can make.  `blessResult`
yields `(name, migration_url, blessed_files)`; `postBlessResult` yields the
durable image references.  The two mid-protocol store writes (the metadata
update and the `vm_state=blessed` record update) have their own switches;
the compensation calls (re-launch, discard) have theirs. -/
structure BlessEnv where
  blessResult : Except Unit (String × Option String × List String)
  postBlessResult : Except Unit (List String)
  metadataUpdateOk : Bool
  blessedUpdateOk : Bool
  relaunchOk : Bool
  discardOk : Bool
deriving DecidableEq, Repr

/-- The `vm_state=ERROR, task_state=None` update used on bless failures. -/
def blessErrorFields : UpdateFields :=
  { vm_state := some ERROR, task_state := some none }

/-- The final `bless_cleanup` step and normal return: cleanup failure is
caught and logged, so the result is `ok` regardless. -/
def bless_cleanup_step (murl : Option String) (db : Db) (tr : List Effect) :
    Except Unit (Option String) × Db × List Effect :=
  (Except.ok murl, db, tr ++ [Effect.driverBlessCleanup])

/-- Discard half of the `except:` block of steps 2–3: discard the produced
image references, then (non-migration) mark the instance ERROR — and fall
through to cleanup and a normal return, since the block does not re-raise. -/
def bless_compensate_discard (env : BlessEnv) (migration : Bool)
    (murl : Option String) (image_refs : List String) (db : Db)
    (tr : List Effect) : Except Unit (Option String) × Db × List Effect :=
  let tr := tr ++ [Effect.driverDiscard image_refs]
  if !env.discardOk then (Except.error (), db, tr)
  else
    if !migration then
      bless_cleanup_step murl (dbUpdate db blessErrorFields)
        (tr ++ [Effect.instanceUpdate blessErrorFields])
    else bless_cleanup_step murl db tr

/-- The `except:` block around steps 2–3 of `bless_instance`: on a migration
bless, first re-launch the instance locally from the local artifacts
(`blessed_files`); then discard the partial image references; an exception
inside the block itself propagates. -/
def bless_compensate (env : BlessEnv) (migration : Bool) (murl : Option String)
    (blessed_files image_refs : List String) (db : Db) (tr : List Effect) :
    Except Unit (Option String) × Db × List Effect :=
  if migration then
    let tr := tr ++ [Effect.driverLaunch blessed_files]
    if !env.relaunchOk then (Except.error (), db, tr)
    else bless_compensate_discard env migration murl image_refs db tr
  else bless_compensate_discard env migration murl image_refs db tr

/-- `bless_instance`: drive the bless, post-bless, metadata/record writes,
compensation and cleanup exactly as the source's two try/except blocks do.
`migration_url` is the caller's argument; the driver's returned url replaces
it and is returned at the end. -/
def bless_instance (env : BlessEnv) (migration_url : Option String) (db : Db)
    (now : Nat) : Except Unit (Option String) × Db × List Effect :=
  let migration := isTruthy migration_url
  match env.blessResult with
  | Except.error e =>
    if !migration then
      (Except.error e, dbUpdate db blessErrorFields,
       [Effect.driverBless, Effect.instanceUpdate blessErrorFields])
    else (Except.error e, db, [Effect.driverBless])
  | Except.ok (_name, murl, blessed_files) =>
    let tr := [Effect.driverBless, Effect.driverPostBless]
    match env.postBlessResult with
    | Except.error _ => bless_compensate env migration murl blessed_files [] db tr
    | Except.ok image_refs =>
      let md := mdSet db.metadata "images" (MetaVal.s (joinComma image_refs))
      let md := if !migration then mdSet md "blessed" (MetaVal.b true) else md
      let tr := tr ++ [Effect.metadataGet, Effect.metadataUpdate md]
      if !env.metadataUpdateOk then
        bless_compensate env migration murl blessed_files image_refs db tr
      else
        let db := { db with metadata := md }
        if migration then bless_cleanup_step murl db tr
        else
          let f : UpdateFields :=
            { vm_state := some BLESSED, task_state := some none,
              launched_at := some (some now) }
          let tr := tr ++ [Effect.notify "bless", Effect.instanceUpdate f]
          if !env.blessedUpdateOk then
            bless_compensate env migration murl blessed_files image_refs db tr
          else bless_cleanup_step murl (dbUpdate db f) tr

/-! ## Launch protocol (`launch_instance`) -/

/-- Outcomes of the external calls `launch_instance` can make. -/
structure LaunchEnv where
  allocOk : Bool
  rpcPreLiveOk : Bool
  launchOk : Bool
  finalUpdateOk : Bool
deriving DecidableEq, Repr

/-- The `except:` block around step 4 of `launch_instance`: a non-migration
launch is marked ERROR with `task_state` cleared; in both modes the
exception is re-raised. -/
def launch_except_path (migration : Bool) (db : Db) (tr : List Effect) :
    Except Unit Unit × Db × List Effect :=
  if !migration then
    (Except.error (), dbUpdate db blessErrorFields,
     tr ++ [Effect.instanceUpdate blessErrorFields])
  else (Except.error (), db, tr)

/-- Steps 3–5 of `launch_instance` (the big try block and the final
bookkeeping update): pre-provision networking over rpc (non-migration only),
invoke the driver's launch, notify (non-migration only), then attempt the
final ACTIVE update, whose failure is logged and swallowed. -/
def launch_main (env : LaunchEnv) (migration : Bool) (selfHost : String)
    (image_refs : List String) (db : Db) (tr : List Effect) (now : Nat) :
    Except Unit Unit × Db × List Effect :=
  let tr := tr ++ (if !migration then [Effect.rpcCall "pre_live_migration"] else [])
  if !migration && !env.rpcPreLiveOk then launch_except_path migration db tr
  else
    let tr := tr ++ [Effect.driverLaunch image_refs]
    if !env.launchOk then launch_except_path migration db tr
    else
      let tr := tr ++ (if !migration then [Effect.notify "launch"] else [])
      let f : UpdateFields :=
        { vm_state := some ACTIVE, host := some (some selfHost),
          launched_at := some (some now), task_state := some none }
      let tr := tr ++ [Effect.instanceUpdate f]
      if env.finalUpdateOk then (Except.ok (), dbUpdate db f, tr)
      else (Except.ok (), db, tr)

/-- `launch_instance`: parse the page budget (malformed budgets fall back to
no limit), read the source's image references, enter either the migration
branch (`vm_state=MIGRATING, task_state=SPAWNING`) or the fresh-launch
branch (BUILDING/NETWORKING, network allocation ERROR-on-failure,
BUILDING/SPAWNING), then run the launch try block.  `sourceMetadata` is the
blessed source's metadata, read when not migrating (a migration launch
reads the instance's own metadata). -/
def launch_instance (env : LaunchEnv) (selfHost : String)
    (migration_url : Option String) (target : String) (stub_network : Bool)
    (sourceMetadata : Metadata) (db : Db) (now : Nat) :
    Except Unit Unit × Db × List Effect :=
  let migration := isTruthy migration_url
  let _target :=
    if target != "0" then
      match memory_string_to_pages target with
      | some p => toString p
      | none => "0"
    else "0"
  let srcMd := if migration then db.metadata else sourceMetadata
  let image_refs := extract_image_refs srcMd
  if migration then
    let f1 : UpdateFields :=
      { vm_state := some MIGRATING, task_state := some (some SPAWNING) }
    launch_main env migration selfHost image_refs (dbUpdate db f1)
      [Effect.metadataGet, Effect.instanceUpdate f1] now
  else
    if !stub_network then
      let fA : UpdateFields :=
        { vm_state := some BUILDING, task_state := some (some NETWORKING),
          host := some (some selfHost) }
      let db := dbUpdate db fA
      let tr := [Effect.metadataGet, Effect.instanceUpdate fA, Effect.networkAllocate]
      if !env.allocOk then
        (Except.error (), dbUpdate db blessErrorFields,
         tr ++ [Effect.instanceUpdate blessErrorFields])
      else
        let fB : UpdateFields :=
          { vm_state := some BUILDING, task_state := some (some SPAWNING) }
        launch_main env migration selfHost image_refs (dbUpdate db fB)
          (tr ++ [Effect.instanceUpdate fB]) now
    else
      let fB : UpdateFields :=
        { vm_state := some BUILDING, task_state := some (some SPAWNING) }
      launch_main env migration selfHost image_refs (dbUpdate db fB)
        [Effect.metadataGet, Effect.instanceUpdate fB] now

/-! ## Discard protocol (`discard_instance`) -/

/-- Outcomes of the external calls `discard_instance` can make. -/
structure DiscardEnv where
  discardOk : Bool
  metadataUpdateOk : Bool
  recordUpdateOk : Bool
  destroyOk : Bool
deriving DecidableEq, Repr

/-- `discard_instance`: read the image references from metadata, call the
driver's discard (no try/except — a failure propagates with nothing
written), then clear the blessed flag, mark DELETED with `terminated_at`
stamped and `task_state` cleared, destroy the record, and notify. -/
def discard_instance (env : DiscardEnv) (db : Db) (now : Nat) :
    Except Unit Unit × Db × List Effect :=
  let image_refs := extract_image_refs db.metadata
  let tr := [Effect.metadataGet, Effect.driverDiscard image_refs]
  if !env.discardOk then (Except.error (), db, tr)
  else
    let md := mdSet db.metadata "blessed" (MetaVal.b false)
    let tr := tr ++ [Effect.metadataUpdate md]
    if !env.metadataUpdateOk then (Except.error (), db, tr)
    else
      let db : Db := { db with metadata := md }
      let f : UpdateFields :=
        { vm_state := some DELETED, task_state := some none,
          terminated_at := some (some now) }
      let tr := tr ++ [Effect.instanceUpdate f]
      if !env.recordUpdateOk then (Except.error (), db, tr)
      else
        let db := dbUpdate db f
        let tr := tr ++ [Effect.instanceDestroy]
        if !env.destroyOk then (Except.error (), db, tr)
        else (Except.ok (), { db with record := none }, tr ++ [Effect.notify "discard"])

/-! ## Migrate protocol (`migrate_instance`)

The nested `bless_instance` and fallback `launch_instance` calls are
recorded as single opaque call effects with their outcome taken from the
environment; their internal effects are settled by their own models above. -/

/-- Outcomes of the external calls `migrate_instance` can make. -/
structure MigrateEnv where
  hasVolumes : Bool
  checkExportOk : Bool
  migrationAddressOk : Bool
  metadataUpdateOk : Bool
  preLiveMigrationOk : Bool
  blessResult : Except Unit (Option String)
  preMigrationOk : Bool
  remoteLaunchOk : Bool
  localLaunchOk : Bool
  discardOk : Bool
deriving DecidableEq, Repr

/-- Tail of `migrate_instance` once the VM is committed to one host: read
the metadata and discard the migration artifacts (a discard failure still
propagates, everything before it was best-effort). -/
def migrate_after_launch (env : MigrateEnv) (db : Db) (tr : List Effect) :
    Except Unit Unit × Db × List Effect :=
  let tr := tr ++ [Effect.metadataGet]
  let image_refs := extract_image_refs db.metadata
  let tr := tr ++ [Effect.driverDiscard image_refs]
  if !env.discardOk then (Except.error (), db, tr)
  else (Except.ok (), db, tr)

/-- `migrate_instance`: reject when the recorded host is not this host
(before any call is made), then run the cross-host saga: volume export
check, migration address, `gc_src_host`/`gc_dst_host` metadata write,
destination pre-provisioning, migration bless, pre-migration hook, remote
launch with local-launch fallback, best-effort post-migration and source
cleanup, and the final discard of migration artifacts. -/
def migrate_instance (env : MigrateEnv) (selfHost dest : String) (db : Db) :
    Except Unit Unit × Db × List Effect :=
  match db.record with
  | none => (Except.error (), db, [])
  | some inst =>
    if inst.host ≠ some selfHost then (Except.error (), db, [])
    else
      let tr := if env.hasVolumes then [Effect.rpcCall "check_for_export"] else []
      if env.hasVolumes && !env.checkExportOk then (Except.error (), db, tr)
      else if !env.migrationAddressOk then (Except.error (), db, tr)
      else
        let md := mdSet (mdSet db.metadata "gc_src_host" (MetaVal.s selfHost))
          "gc_dst_host" (MetaVal.s dest)
        let tr := tr ++ [Effect.metadataGet, Effect.metadataUpdate md]
        if !env.metadataUpdateOk then (Except.error (), db, tr)
        else
          let db : Db := { db with metadata := md }
          let tr := tr ++ [Effect.rpcCall "pre_live_migration"]
          if !env.preLiveMigrationOk then (Except.error (), db, tr)
          else
            let tr := tr ++ [Effect.blessInstanceCall]
            match env.blessResult with
            | Except.error _ => (Except.error (), db, tr)
            | Except.ok _murl =>
              let tr := tr ++ [Effect.driverPreMigration]
              if !env.preMigrationOk then (Except.error (), db, tr)
              else
                let tr := tr ++ [Effect.rpcCall "launch_instance"]
                if env.remoteLaunchOk then
                  migrate_after_launch env db
                    (tr ++ [Effect.driverPostMigration,
                            Effect.rpcCall "rollback_live_migration_at_destination",
                            Effect.reconfigureNetworks])
                else
                  let tr := tr ++ [Effect.launchInstanceCall]
                  if !env.localLaunchOk then (Except.error (), db, tr)
                  else migrate_after_launch env db (tr ++ [Effect.driverPostMigration])

/-! ## Theorems -/

/-- C3 (counterexample): the parser's page count is not the ceiling of the
denoted bytes over 4096.  `"12287b"` denotes 12287 bytes; the parser
returns 2 pages, while `max 1 (ceil (12287 / 4096))` is 3. -/
theorem c3_pages_not_ceiling_counterexample :
    memory_string_to_bytes "12287b" = some 12287 ∧
    memory_string_to_pages "12287b" = some 2 ∧
    (2 : Nat) ≠ max 1 ((12287 + 4096 - 1) / 4096) := by
  decide

/-- C3 (amended): for every accepted page-budget string the returned page
count is the floor (not the ceiling) of the denoted byte value divided by
4096, with a floor of one page. -/
theorem c3_pages_floor_div (mem : String) :
    memory_string_to_pages mem =
      (memory_string_to_bytes mem).map (fun bytes => max 1 (bytes / 4096)) := by
  unfold memory_string_to_pages memory_string_to_bytes
  cases h : matchMemoryString? (mem.data.map Char.toLower) with
  | none => rfl
  | some p =>
    obtain ⟨v, shift⟩ := p
    have hsr : (v <<< shift) >>> 12 = (v <<< shift) / 4096 := by
      rw [Nat.shiftRight_eq_div_pow]
    simp only [Option.map]
    rw [hsr]

/-- C4: the unit suffix is case-insensitive (`"512MB"`, `"512mb"`, `"512Mb"`
parse identically), the listed inputs map to exactly the listed page counts,
and the three malformed inputs are validation errors (`none`), not crashes. -/
theorem c4_parser_table :
    memory_string_to_pages "512MB" = memory_string_to_pages "512mb" ∧
    memory_string_to_pages "512MB" = memory_string_to_pages "512Mb" ∧
    memory_string_to_pages "1TB" = some 268435456 ∧
    memory_string_to_pages "1GB" = some 262144 ∧
    memory_string_to_pages "1MB" = some 256 ∧
    memory_string_to_pages "2KB" = some 1 ∧
    memory_string_to_pages "4KB" = some 1 ∧
    memory_string_to_pages "20KB" = some 5 ∧
    memory_string_to_pages "12287b" = some 2 ∧
    memory_string_to_pages "12288b" = some 3 ∧
    memory_string_to_pages "512" = some 1 ∧
    memory_string_to_pages "4096" = some 1 ∧
    memory_string_to_pages "8192" = some 2 ∧
    memory_string_to_pages "512megabytes" = none ∧
    memory_string_to_pages "garbage" = none ∧
    memory_string_to_pages "-512MB" = none := by
  decide

/-- C8: the instance lock is reentrant per owner.  With unique keys in the
`locked_instances` map: an acquire on an unheld id stores `(me, 1)`; an
acquire by the current owner increments the stored refcount; an acquire
against a different owner blocks (waits on the condition variable, modelled
as `none`); a release decrements the refcount, and at refcount one removes
the entry and notifies all waiters. -/
theorem c8_lock_reentrant (m : List (Nat × Nat × Nat)) (me iid : Nat)
    (hnd : (m.map (fun e => e.1)).Nodup) :
    (lookupLock m iid = none →
      lock_instance m me iid = some (setLock m iid me 1) ∧
      lookupLock (setLock m iid me 1) iid = some (me, 1)) ∧
    (∀ c, lookupLock m iid = some (me, c) →
      lock_instance m me iid = some (setLock m iid me (c + 1)) ∧
      lookupLock (setLock m iid me (c + 1)) iid = some (me, c + 1)) ∧
    (∀ o c, lookupLock m iid = some (o, c) → o ≠ me →
      lock_instance m me iid = none) ∧
    (∀ o c, lookupLock m iid = some (o, c) → c ≠ 1 →
      unlock_instance m iid = (setLock m iid o (c - 1), false) ∧
      lookupLock (setLock m iid o (c - 1)) iid = some (o, c - 1)) ∧
    (∀ o, lookupLock m iid = some (o, 1) →
      unlock_instance m iid = (removeLock m iid, true) ∧
      lookupLock (removeLock m iid) iid = none) := by
  refine ⟨?_, ?_, ?_, ?_, ?_⟩
  · intro h
    constructor
    · simp [lock_instance, h]
    · exact lookupLock_setLock_self m iid me 1
  · intro c h
    constructor
    · simp [lock_instance, h]
    · exact lookupLock_setLock_self m iid me (c + 1)
  · intro o c h ho
    simp [lock_instance, h, ho]
  · intro o c h hc
    constructor
    · simp [unlock_instance, h, hc]
    · exact lookupLock_setLock_self m iid o (c - 1)
  · intro o h
    constructor
    · simp [unlock_instance, h]
    · exact lookupLock_removeLock_self m iid hnd

/-- C8 witness: a reentrant acquire on a held lock at a concrete map. -/
theorem c8_lock_reentrant_witness :
    lock_instance [(3, 7, 2)] 7 3 = some [(3, 7, 3)] ∧
    unlock_instance [(3, 7, 1)] 3 = ([], true) ∧
    lock_instance [(3, 7, 2)] 8 3 = none := by
  have h := c8_lock_reentrant [(3, 7, 2)] 7 3 (by decide)
  have h1 := (h.2.1 2 (by decide)).1
  have h2 := c8_lock_reentrant [(3, 7, 1)] 7 3 (by decide)
  have h3 := (h2.2.2.2.2 7 (by decide)).1
  have h4 := (c8_lock_reentrant [(3, 7, 2)] 8 3 (by decide)).2.2.1 7 2 (by decide) (by decide)
  exact ⟨h1.trans (by decide), h3.trans (by decide), h4⟩

/-- C9: a reconciliation pass never touches a lock-held instance: the loop
body skips it before reading its metadata or computing any update (empty
effect list, no update), and the pass as a whole carries the instance's
record and metadata through unchanged wherever it sits in the host's
instance list. -/
theorem c9_locked_instance_untouched (selfHost : String) (lockedIds : List Nat)
    (localInstances : List String) (inst : InstanceRecord) (md : Metadata)
    (h : inst.id ∈ lockedIds) :
    refresh_host_instance selfHost lockedIds localInstances inst md = (none, []) ∧
    ∀ l, (inst, md) ∈ l →
      (inst, md) ∈ (refresh_host selfHost lockedIds localInstances l).1 := by
  have hstep : refresh_host_instance selfHost lockedIds localInstances inst md
      = (none, []) := by
    simp [refresh_host_instance, h]
  refine ⟨hstep, ?_⟩
  intro l hl
  induction l with
  | nil => cases hl
  | cons hd tl ih =>
    obtain ⟨i2, m2⟩ := hd
    rcases List.mem_cons.mp hl with heq | hmem
    · injection heq with h1 h2
      subst h1
      subst h2
      simp [refresh_host, hstep]
    · simp only [refresh_host]
      exact List.mem_cons_of_mem _ (ih hmem)

/-- C5: for an unlocked instance of this host with `vm_state == MIGRATING`,
one reconciliation step follows the four-case table keyed by (running
locally?) × (src/dst hint): running with src = this host → ACTIVE; running
with dst = this host (and not the src case) → ACTIVE plus best-effort
network reconfiguration; not running with src = this host → `host` becomes
the `gc_dst_host` hint and the state stays MIGRATING; not running with
dst = this host (and not the src case) → ERROR; any other hint combination
leaves the record untouched. -/
theorem c5_refresh_migrating_table (selfHost : String) (lockedIds : List Nat)
    (localInstances : List String) (inst : InstanceRecord) (md : Metadata)
    (hlock : inst.id ∉ lockedIds) (hmig : inst.vm_state = MIGRATING) :
    (inst.name ∈ localInstances → mdGetStr md "gc_src_host" = some selfHost →
      refresh_host_instance selfHost lockedIds localInstances inst md =
        (some { vm_state := some ACTIVE, host := some (some selfHost) },
         [Effect.metadataGet, Effect.instanceUpdate
            { vm_state := some ACTIVE, host := some (some selfHost) }]) ∧
      (applyUpdate inst
        { vm_state := some ACTIVE, host := some (some selfHost) }).vm_state = ACTIVE) ∧
    (inst.name ∈ localInstances → mdGetStr md "gc_src_host" ≠ some selfHost →
      mdGetStr md "gc_dst_host" = some selfHost →
      refresh_host_instance selfHost lockedIds localInstances inst md =
        (some { vm_state := some ACTIVE, host := some (some selfHost) },
         [Effect.metadataGet, Effect.reconfigureNetworks, Effect.instanceUpdate
            { vm_state := some ACTIVE, host := some (some selfHost) }]) ∧
      (applyUpdate inst
        { vm_state := some ACTIVE, host := some (some selfHost) }).vm_state = ACTIVE) ∧
    (inst.name ∉ localInstances → mdGetStr md "gc_src_host" = some selfHost →
      refresh_host_instance selfHost lockedIds localInstances inst md =
        (some { vm_state := some MIGRATING, host := some (mdGetStr md "gc_dst_host") },
         [Effect.metadataGet, Effect.instanceUpdate
            { vm_state := some MIGRATING, host := some (mdGetStr md "gc_dst_host") }]) ∧
      (applyUpdate inst
        { vm_state := some MIGRATING, host := some (mdGetStr md "gc_dst_host") }).vm_state
          = MIGRATING ∧
      (applyUpdate inst
        { vm_state := some MIGRATING, host := some (mdGetStr md "gc_dst_host") }).host
          = mdGetStr md "gc_dst_host") ∧
    (inst.name ∉ localInstances → mdGetStr md "gc_src_host" ≠ some selfHost →
      mdGetStr md "gc_dst_host" = some selfHost →
      refresh_host_instance selfHost lockedIds localInstances inst md =
        (some { vm_state := some ERROR, host := some (some selfHost) },
         [Effect.metadataGet, Effect.instanceUpdate
            { vm_state := some ERROR, host := some (some selfHost) }]) ∧
      (applyUpdate inst
        { vm_state := some ERROR, host := some (some selfHost) }).vm_state = ERROR) ∧
    (mdGetStr md "gc_src_host" ≠ some selfHost → mdGetStr md "gc_dst_host" ≠ some selfHost →
      refresh_host_instance selfHost lockedIds localInstances inst md =
        (none, [Effect.metadataGet])) := by
  refine ⟨?_, ?_, ?_, ?_, ?_⟩
  · intro hrun hsrc
    constructor
    · simp [refresh_host_instance, hlock, hmig, hrun, hsrc]
    · simp [applyUpdate]
  · intro hrun hsrc hdst
    constructor
    · simp [refresh_host_instance, hlock, hmig, hrun, hsrc, hdst]
    · simp [applyUpdate]
  · intro hrun hsrc
    refine ⟨?_, ?_, ?_⟩
    · simp [refresh_host_instance, hlock, hmig, hrun, hsrc]
    · simp [applyUpdate]
    · simp [applyUpdate]
  · intro hrun hsrc hdst
    constructor
    · simp [refresh_host_instance, hlock, hmig, hrun, hsrc, hdst]
    · simp [applyUpdate]
  · intro hsrc hdst
    by_cases hrun : inst.name ∈ localInstances <;>
      simp [refresh_host_instance, hlock, hmig, hrun, hsrc, hdst]

/-- C10: with the instance not running locally, `gc_src_host` equal to this
host, and no `gc_dst_host` key at all, the reconciliation step writes
`host = None` (binding the instance to no host) while keeping the state
MIGRATING. -/
theorem c10_missing_dst_host_becomes_none (selfHost : String)
    (lockedIds : List Nat) (localInstances : List String)
    (inst : InstanceRecord) (md : Metadata)
    (hlock : inst.id ∉ lockedIds) (hmig : inst.vm_state = MIGRATING)
    (hrun : inst.name ∉ localInstances)
    (hsrc : mdGetStr md "gc_src_host" = some selfHost)
    (hdst : mdGet md "gc_dst_host" = none) :
    refresh_host_instance selfHost lockedIds localInstances inst md =
      (some { vm_state := some MIGRATING, host := some none },
       [Effect.metadataGet, Effect.instanceUpdate
          { vm_state := some MIGRATING, host := some none }]) ∧
    (applyUpdate inst { vm_state := some MIGRATING, host := some none }).host = none ∧
    (applyUpdate inst { vm_state := some MIGRATING, host := some none }).vm_state
      = MIGRATING := by
  have hdst2 : mdGetStr md "gc_dst_host" = none := by
    simp [mdGetStr, hdst]
  refine ⟨?_, ?_, ?_⟩
  · simp [refresh_host_instance, hlock, hmig, hrun, hsrc, hdst2]
  · simp [applyUpdate]
  · simp [applyUpdate]

/-- A sample MIGRATING instance record for concrete witnesses. -/
def sampleInst : InstanceRecord :=
  { id := 5, name := "instance-5", vm_state := MIGRATING,
    task_state := some "migrating", host := some "h1", node := none,
    launched_at := none, terminated_at := none }

/-- Sample migration host hints. -/
def sampleMd : Metadata :=
  [("gc_src_host", MetaVal.s "h1"), ("gc_dst_host", MetaVal.s "h2")]

/-- Sample database state for concrete witnesses. -/
def sampleDb : Db := { record := some sampleInst, metadata := sampleMd }

/-- C5 witness: the moved-away case (not running locally, src = this host)
at a concrete instance. -/
theorem c5_refresh_migrating_table_witness :
    refresh_host_instance "h1" [] [] sampleInst sampleMd =
      (some { vm_state := some MIGRATING, host := some (mdGetStr sampleMd "gc_dst_host") },
       [Effect.metadataGet, Effect.instanceUpdate
          { vm_state := some MIGRATING, host := some (mdGetStr sampleMd "gc_dst_host") }]) ∧
    (applyUpdate sampleInst
      { vm_state := some MIGRATING, host := some (mdGetStr sampleMd "gc_dst_host") }).vm_state
        = MIGRATING ∧
    (applyUpdate sampleInst
      { vm_state := some MIGRATING, host := some (mdGetStr sampleMd "gc_dst_host") }).host
        = mdGetStr sampleMd "gc_dst_host" :=
  (c5_refresh_migrating_table "h1" [] [] sampleInst sampleMd (by decide)
    (by decide)).2.2.1 (by decide) (by decide)

/-- C9 witness: the loop body at a concrete locked instance. -/
theorem c9_locked_instance_untouched_witness :
    refresh_host_instance "h1" [5] ["instance-5"] sampleInst sampleMd = (none, []) :=
  (c9_locked_instance_untouched "h1" [5] ["instance-5"] sampleInst sampleMd
    (by decide)).1

/-- Metadata with a src hint but no dst hint, for the C10 witness. -/
def srcOnlyMd : Metadata := [("gc_src_host", MetaVal.s "h1")]

/-- C10 witness: the missing-dst case at a concrete instance. -/
theorem c10_missing_dst_host_becomes_none_witness :
    refresh_host_instance "h1" [] [] sampleInst srcOnlyMd =
      (some { vm_state := some MIGRATING, host := some none },
       [Effect.metadataGet, Effect.instanceUpdate
          { vm_state := some MIGRATING, host := some none }]) ∧
    (applyUpdate sampleInst { vm_state := some MIGRATING, host := some none }).host = none ∧
    (applyUpdate sampleInst { vm_state := some MIGRATING, host := some none }).vm_state
      = MIGRATING :=
  c10_missing_dst_host_becomes_none "h1" [] [] sampleInst srcOnlyMd (by decide)
    (by decide) (by decide) (by decide) (by decide)

/-- C6: `migrate_instance` on an instance whose recorded host is not the
caller's host fails with an error before issuing any call: the database is
unchanged and the effect trace is empty. -/
theorem c6_migrate_wrong_host_no_mutation (env : MigrateEnv) (selfHost dest : String)
    (db : Db) (inst : InstanceRecord) (hrec : db.record = some inst)
    (hhost : inst.host ≠ some selfHost) :
    migrate_instance env selfHost dest db = (Except.error (), db, []) := by
  simp only [migrate_instance, hrec]
  simp [hhost]

/-- A fully-successful migrate environment, for the C6 witness. -/
def c6Env : MigrateEnv :=
  { hasVolumes := false, checkExportOk := true, migrationAddressOk := true,
    metadataUpdateOk := true, preLiveMigrationOk := true,
    blessResult := Except.ok (some "mcdist://h1"), preMigrationOk := true,
    remoteLaunchOk := true, localLaunchOk := true, discardOk := true }

/-- C6 witness: a concrete migrate request for an instance on host h1
arriving at host h2. -/
theorem c6_migrate_wrong_host_no_mutation_witness :
    migrate_instance c6Env "h2" "h3" sampleDb = (Except.error (), sampleDb, []) :=
  c6_migrate_wrong_host_no_mutation c6Env "h2" "h3" sampleDb sampleInst rfl (by decide)

@[simp]
theorem dbUpdate_metadata (db : Db) (f : UpdateFields) :
    (dbUpdate db f).metadata = db.metadata := rfl

@[simp]
theorem dbUpdate_record (db : Db) (f : UpdateFields) :
    (dbUpdate db f).record = db.record.map (fun r => applyUpdate r f) := rfl

theorem mdGet_mdSet_self (md : Metadata) (key : String) (v : MetaVal) :
    mdGet (mdSet md key v) key = some v := by
  induction md with
  | nil => simp [mdSet, mdGet]
  | cons hd tl ih =>
    obtain ⟨k, v0⟩ := hd
    by_cases h : k = key <;> simp [mdSet, mdGet, h, ih]

/-- C7: discard is front-loaded.  If the driver's discard call fails, the
exception propagates and nothing has been written: the database is exactly
the input and the trace holds only the metadata read and the driver call.
If the driver call succeeds (and the store cooperates) the protocol clears
the blessed flag, marks DELETED with `terminated_at` stamped and
`task_state` cleared, destroys the record, and notifies — in that order. -/
theorem c7_discard_frontloaded (env : DiscardEnv) (db : Db) (now : Nat) :
    (env.discardOk = false →
      discard_instance env db now =
        (Except.error (), db,
         [Effect.metadataGet, Effect.driverDiscard (extract_image_refs db.metadata)])) ∧
    (env.discardOk = true → env.metadataUpdateOk = true → env.recordUpdateOk = true →
     env.destroyOk = true →
      discard_instance env db now =
        (Except.ok (),
         { record := none, metadata := mdSet db.metadata "blessed" (MetaVal.b false) },
         [Effect.metadataGet, Effect.driverDiscard (extract_image_refs db.metadata),
          Effect.metadataUpdate (mdSet db.metadata "blessed" (MetaVal.b false)),
          Effect.instanceUpdate
            { vm_state := some DELETED, task_state := some none,
              terminated_at := some (some now) },
          Effect.instanceDestroy, Effect.notify "discard"]) ∧
      mdGet (mdSet db.metadata "blessed" (MetaVal.b false)) "blessed"
        = some (MetaVal.b false)) := by
  constructor
  · intro h
    simp [discard_instance, h]
  · intro h1 h2 h3 h4
    refine ⟨?_, mdGet_mdSet_self db.metadata "blessed" (MetaVal.b false)⟩
    simp [discard_instance, h1, h2, h3, h4]

/-- An all-success discard environment, for the C7 witness. -/
def c7Env : DiscardEnv :=
  { discardOk := true, metadataUpdateOk := true, recordUpdateOk := true,
    destroyOk := true }

/-- C7 witness: a concrete successful discard. -/
theorem c7_discard_frontloaded_witness :
    discard_instance c7Env sampleDb 42 =
      (Except.ok (),
       { record := none, metadata := mdSet sampleDb.metadata "blessed" (MetaVal.b false) },
       [Effect.metadataGet, Effect.driverDiscard (extract_image_refs sampleDb.metadata),
        Effect.metadataUpdate (mdSet sampleDb.metadata "blessed" (MetaVal.b false)),
        Effect.instanceUpdate
          { vm_state := some DELETED, task_state := some none,
            terminated_at := some (some 42) },
        Effect.instanceDestroy, Effect.notify "discard"]) ∧
    mdGet (mdSet sampleDb.metadata "blessed" (MetaVal.b false)) "blessed"
      = some (MetaVal.b false) :=
  (c7_discard_frontloaded c7Env sampleDb 42).2 rfl rfl rfl rfl

/-- Launch environment whose driver launch call fails, for C2. -/
def c2Env : LaunchEnv :=
  { allocOk := true, rpcPreLiveOk := true, launchOk := false, finalUpdateOk := true }

/-- An ACTIVE, unplaced instance about to receive a migration launch, for C2. -/
def c2Inst : InstanceRecord :=
  { id := 9, name := "instance-9", vm_state := ACTIVE, task_state := none,
    host := none, node := none, launched_at := none, terminated_at := none }

/-- Database state for the C2 run. -/
def c2Db : Db := { record := some c2Inst, metadata := [("images", MetaVal.s "ref1")] }

/-- C2 (counterexample): a migration-mode launch whose driver call fails
leaves `vm_state = MIGRATING` (the value written by the migration branch
before the driver call), not ACTIVE as the claim states. -/
theorem c2_vm_state_not_active_counterexample :
    ((launch_instance c2Env "h1" (some "mu") "0" false [] c2Db 0).2.1.record.map
      (fun r => r.vm_state)) = some MIGRATING ∧
    MIGRATING ≠ ACTIVE := by
  decide

/-- C2 (amended): a migration-mode launch whose driver call fails re-raises,
and afterwards the record has `vm_state = MIGRATING` (written by the
migration branch as the operation began, replacing the prior ACTIVE),
`task_state = SPAWNING`, and `host`/`node`/`launched_at` unchanged (never
assigned); the only effects are the metadata read, that one record update,
and the failed driver call — no ERROR update is written. -/
theorem c2_migration_launch_failure (env : LaunchEnv) (selfHost mu target : String)
    (stub_network : Bool) (srcMd : Metadata) (db : Db) (now : Nat)
    (hmu : mu ≠ "") (hfail : env.launchOk = false) :
    launch_instance env selfHost (some mu) target stub_network srcMd db now =
      (Except.error (),
       dbUpdate db { vm_state := some MIGRATING, task_state := some (some SPAWNING) },
       [Effect.metadataGet,
        Effect.instanceUpdate
          { vm_state := some MIGRATING, task_state := some (some SPAWNING) },
        Effect.driverLaunch (extract_image_refs db.metadata)]) ∧
    (∀ inst, db.record = some inst →
      ∃ inst2,
        (launch_instance env selfHost (some mu) target stub_network srcMd db now).2.1.record
          = some inst2 ∧
        inst2.vm_state = MIGRATING ∧ inst2.task_state = some SPAWNING ∧
        inst2.host = inst.host ∧ inst2.node = inst.node ∧
        inst2.launched_at = inst.launched_at) := by
  have ht : isTruthy (some mu) = true := by
    simp [isTruthy, hmu]
  have heq : launch_instance env selfHost (some mu) target stub_network srcMd db now =
      (Except.error (),
       dbUpdate db { vm_state := some MIGRATING, task_state := some (some SPAWNING) },
       [Effect.metadataGet,
        Effect.instanceUpdate
          { vm_state := some MIGRATING, task_state := some (some SPAWNING) },
        Effect.driverLaunch (extract_image_refs db.metadata)]) := by
    simp [launch_instance, launch_main, launch_except_path, ht, hfail]
  refine ⟨heq, ?_⟩
  intro inst hrec
  refine ⟨applyUpdate inst
    { vm_state := some MIGRATING, task_state := some (some SPAWNING) }, ?_, ?_, ?_, ?_, ?_, ?_⟩
  · rw [heq]
    simp [hrec]
  all_goals simp [applyUpdate]

/-- C2 witness: the amended statement at the concrete C2 run. -/
theorem c2_migration_launch_failure_witness :
    launch_instance c2Env "h1" (some "mu") "0" false [] c2Db 0 =
      (Except.error (),
       dbUpdate c2Db { vm_state := some MIGRATING, task_state := some (some SPAWNING) },
       [Effect.metadataGet,
        Effect.instanceUpdate
          { vm_state := some MIGRATING, task_state := some (some SPAWNING) },
        Effect.driverLaunch (extract_image_refs c2Db.metadata)]) :=
  (c2_migration_launch_failure c2Env "h1" "mu" "0" false [] c2Db 0 (by decide) rfl).1

/-- Bless environment whose post-bless call fails, for C1. -/
def c1Env : BlessEnv :=
  { blessResult := Except.ok ("newname", some "mu", ["f1", "f2"]),
    postBlessResult := Except.error (),
    metadataUpdateOk := true, blessedUpdateOk := true,
    relaunchOk := true, discardOk := true }

/-- C1 (counterexample): when the post-bless step fails, `bless_instance`
does not re-raise: the `except:` block around steps 2–3 has no `raise`, so
after the compensating cleanup the method falls through to local cleanup
and returns the migration url normally. -/
theorem c1_no_reraise_counterexample :
    (bless_instance c1Env none sampleDb 0).1 = Except.ok (some "mu") ∧
    (bless_instance c1Env none sampleDb 0).1 ≠ Except.error () := by
  decide

/-- The metadata written by a successful non-migration bless: the image
reference list plus the blessed flag. -/
def mdWithImagesBlessed (md : Metadata) (refs : List String) : Metadata :=
  mdSet (mdSet md "images" (MetaVal.s (joinComma refs))) "blessed" (MetaVal.b true)

/-- C1 (amended): when the post-bless step, the metadata update, or the
blessed-record update fails (and the compensation calls themselves
succeed), the protocol performs the compensating cleanup — on a migration
bless it re-launches the instance locally from the local artifacts, in both
modes it discards the partially-produced reference list (empty when
post-bless itself failed), and on a non-migration bless it marks the
instance ERROR with `task_state` cleared — but it does NOT re-raise: the
local-artifact cleanup still runs and the method returns the migration url
normally. -/
theorem c1_compensation_without_reraise (env : BlessEnv)
    (migration_url : Option String) (db : Db) (now : Nat)
    (nm : String) (murl : Option String) (bfs : List String)
    (hb : env.blessResult = Except.ok (nm, murl, bfs))
    (hrel : env.relaunchOk = true) (hdis : env.discardOk = true) :
    (env.postBlessResult = Except.error () →
      bless_instance env migration_url db now =
        (if isTruthy migration_url then
          (Except.ok murl, db,
           [Effect.driverBless, Effect.driverPostBless, Effect.driverLaunch bfs,
            Effect.driverDiscard [], Effect.driverBlessCleanup])
         else
          (Except.ok murl, dbUpdate db blessErrorFields,
           [Effect.driverBless, Effect.driverPostBless, Effect.driverDiscard [],
            Effect.instanceUpdate blessErrorFields, Effect.driverBlessCleanup]))) ∧
    (∀ refs, env.postBlessResult = Except.ok refs → env.metadataUpdateOk = false →
      bless_instance env migration_url db now =
        (if isTruthy migration_url then
          (Except.ok murl, db,
           [Effect.driverBless, Effect.driverPostBless, Effect.metadataGet,
            Effect.metadataUpdate (mdSet db.metadata "images" (MetaVal.s (joinComma refs))),
            Effect.driverLaunch bfs, Effect.driverDiscard refs,
            Effect.driverBlessCleanup])
         else
          (Except.ok murl, dbUpdate db blessErrorFields,
           [Effect.driverBless, Effect.driverPostBless, Effect.metadataGet,
            Effect.metadataUpdate (mdWithImagesBlessed db.metadata refs),
            Effect.driverDiscard refs, Effect.instanceUpdate blessErrorFields,
            Effect.driverBlessCleanup]))) ∧
    (∀ refs, env.postBlessResult = Except.ok refs → env.metadataUpdateOk = true →
      isTruthy migration_url = false → env.blessedUpdateOk = false →
      bless_instance env migration_url db now =
        (Except.ok murl,
         dbUpdate { db with metadata := mdWithImagesBlessed db.metadata refs }
           blessErrorFields,
         [Effect.driverBless, Effect.driverPostBless, Effect.metadataGet,
          Effect.metadataUpdate (mdWithImagesBlessed db.metadata refs),
          Effect.notify "bless",
          Effect.instanceUpdate
            { vm_state := some BLESSED, task_state := some none,
              launched_at := some (some now) },
          Effect.driverDiscard refs, Effect.instanceUpdate blessErrorFields,
          Effect.driverBlessCleanup])) ∧
    (∀ r, (applyUpdate r blessErrorFields).vm_state = ERROR ∧
      (applyUpdate r blessErrorFields).task_state = none) := by
  refine ⟨?_, ?_, ?_, ?_⟩
  · intro hpb
    cases hmig : isTruthy migration_url <;>
      simp [bless_instance, bless_compensate, bless_compensate_discard,
        bless_cleanup_step, hb, hpb, hrel, hdis, hmig]
  · intro refs hpb hmd
    cases hmig : isTruthy migration_url <;>
      simp [bless_instance, bless_compensate, bless_compensate_discard,
        bless_cleanup_step, mdWithImagesBlessed, hb, hpb, hmd, hrel, hdis, hmig]
  · intro refs hpb hmd hmig hbu
    simp [bless_instance, bless_compensate, bless_compensate_discard,
      bless_cleanup_step, mdWithImagesBlessed, hb, hpb, hmd, hrel, hdis, hmig, hbu]
  · intro r
    constructor <;> simp [applyUpdate, blessErrorFields]

/-- C1 witness: the amended statement at a concrete migration bless whose
post-bless call fails. -/
theorem c1_compensation_without_reraise_witness :
    bless_instance c1Env (some "mcdist://a") sampleDb 0 =
      (Except.ok (some "mu"), sampleDb,
       [Effect.driverBless, Effect.driverPostBless, Effect.driverLaunch ["f1", "f2"],
        Effect.driverDiscard [], Effect.driverBlessCleanup]) := by
  have h := (c1_compensation_without_reraise c1Env (some "mcdist://a") sampleDb 0
    "newname" (some "mu") ["f1", "f2"] rfl rfl rfl).1 rfl
  exact h.trans (by decide)

end GridCentric
